import Mathlib

/-!
Shallow embedding of `src/main.rs` of the `vulkantest` repository.

The program is a linear Vulkan bring-up and teardown sequence.  All its
observable behaviour consists of calls into external collaborators (the
window library, the process environment, the dynamic loader and the GPU
driver).  We embed it as a deterministic function of an environment
oracle `Env` that fixes every collaborator's answers; the function
returns the `Result` of `run` together with the chronological trace of
externally visible events (object creations, destructions, log output).
Constants are the numeric values of the corresponding `ash::vk` items.
-/

namespace VulkanTest

/-- `vk::API_VERSION_1_1 = (1 << 22) | (1 << 12)`. -/
def API_VERSION_1_1 : Nat := 4198400

/-- `vk::ColorSpaceKHR::SRGB_NONLINEAR`. -/
def COLOR_SPACE_SRGB_NONLINEAR : Nat := 0

/-- `vk::QueueFlags::GRAPHICS`. -/
def QUEUE_FLAGS_GRAPHICS : Nat := 1

/-- `vk::DebugUtilsMessageSeverityFlagsEXT::VERBOSE`. -/
def SEVERITY_VERBOSE : Nat := 1

/-- `vk::DebugUtilsMessageSeverityFlagsEXT::INFO`. -/
def SEVERITY_INFO : Nat := 16

/-- `vk::DebugUtilsMessageSeverityFlagsEXT::WARNING`. -/
def SEVERITY_WARNING : Nat := 256

/-- `vk::DebugUtilsMessageSeverityFlagsEXT::ERROR`. -/
def SEVERITY_ERROR : Nat := 4096

/-- `vk::DebugUtilsMessageTypeFlagsEXT::GENERAL`. -/
def TYPE_GENERAL : Nat := 1

/-- `vk::DebugUtilsMessageTypeFlagsEXT::VALIDATION`. -/
def TYPE_VALIDATION : Nat := 2

/-- `vk::DebugUtilsMessageTypeFlagsEXT::PERFORMANCE`. -/
def TYPE_PERFORMANCE : Nat := 4

/-- `vk::CompositeAlphaFlagsKHR::OPAQUE`. -/
def COMPOSITE_ALPHA_OPAQUE : Nat := 1

/-- `vk::SharingMode::EXCLUSIVE`. -/
def SHARING_MODE_EXCLUSIVE : Nat := 0

/-- `vk::ImageUsageFlags::COLOR_ATTACHMENT`. -/
def IMAGE_USAGE_COLOR_ATTACHMENT : Nat := 16

/-- `vk::SurfaceTransformFlagsKHR::IDENTITY`. -/
def SURFACE_TRANSFORM_IDENTITY : Nat := 1

/-- `vk::PresentModeKHR::FIFO`. -/
def PRESENT_MODE_FIFO : Nat := 2

/-- `vk::CommandPoolCreateFlags::RESET_COMMAND_BUFFER`. -/
def COMMAND_POOL_RESET_COMMAND_BUFFER : Nat := 2

/-- `vk::CommandBufferLevel::PRIMARY`. -/
def COMMAND_BUFFER_LEVEL_PRIMARY : Nat := 0

/-- `vk::ImageLayout::UNDEFINED`. -/
def IMAGE_LAYOUT_UNDEFINED : Nat := 0

/-- `vk::ImageLayout::COLOR_ATTACHMENT_OPTIMAL`. -/
def IMAGE_LAYOUT_COLOR_ATTACHMENT_OPTIMAL : Nat := 2

/-- `vk::ImageLayout::PRESENT_SRC_KHR`. -/
def IMAGE_LAYOUT_PRESENT_SRC_KHR : Nat := 1000001002

/-- `vk::SampleCountFlags::TYPE_1`. -/
def SAMPLE_COUNT_TYPE_1 : Nat := 1

/-- `vk::AttachmentLoadOp::CLEAR`. -/
def ATTACHMENT_LOAD_OP_CLEAR : Nat := 1

/-- `vk::AttachmentLoadOp::DONT_CARE`. -/
def ATTACHMENT_LOAD_OP_DONT_CARE : Nat := 2

/-- `vk::AttachmentStoreOp::STORE`. -/
def ATTACHMENT_STORE_OP_STORE : Nat := 0

/-- `vk::AttachmentStoreOp::DONT_CARE`. -/
def ATTACHMENT_STORE_OP_DONT_CARE : Nat := 1

/-- `vk::FALSE` (a `Bool32`). -/
def VK_FALSE : Nat := 0

/-- `vk::FORMAT_B8G8R8A8_UNORM` (used only in concrete test environments). -/
def FORMAT_B8G8R8A8_UNORM : Nat := 44

/-- The `VK_KHR_surface` extension name (constant `VK_KHR_SURFACE` in the source). -/
def VK_KHR_SURFACE : String := "VK_KHR_surface"

/-- The `VK_EXT_debug_utils` extension name (constant `VK_EXT_DEBUG_UTILS` in the source). -/
def VK_EXT_DEBUG_UTILS : String := "VK_EXT_debug_utils"

/-- The validation layer name (constant `VK_LAYER_KHRONOS_VALIDATION` in the source). -/
def VK_LAYER_KHRONOS_VALIDATION : String := "VK_LAYER_KHRONOS_validation"

/-- The `VK_KHR_swapchain` device extension name (constant `VK_KHR_SWAPCHAIN` in the source). -/
def VK_KHR_SWAPCHAIN : String := "VK_KHR_swapchain"

/-- Severity mask passed to `create_debug_utils_messenger` (`VERBOSE | INFO | ERROR | WARNING`). -/
def debugSeverityMask : Nat :=
  SEVERITY_VERBOSE ||| SEVERITY_INFO ||| SEVERITY_ERROR ||| SEVERITY_WARNING

/-- Type mask passed to `create_debug_utils_messenger` (`GENERAL | PERFORMANCE | VALIDATION`). -/
def debugTypeMask : Nat := TYPE_GENERAL ||| TYPE_PERFORMANCE ||| TYPE_VALIDATION

/-- The window's inner size in pixels, as reported by `window.inner_size()`. -/
structure WindowSize where
  width : Nat
  height : Nat
deriving DecidableEq, Repr

/-- A `vk::SurfaceFormatKHR`: a (pixel format, color space) pair. -/
structure SurfaceFormatKHR where
  format : Nat
  colorSpace : Nat
deriving DecidableEq, Repr

/-- A physical device together with the driver's answers to every query `run`
makes about it: `get_physical_device_properties` (api version, name),
`get_physical_device_surface_formats`, `get_physical_device_surface_present_modes`,
`get_physical_device_surface_capabilities` (only `min_image_count` is read) and
`get_physical_device_queue_family_properties` (only `queue_flags` is read).
The surface-formats query is made at two distinct call sites: inside the
selection predicate (line 123, error swallowed) and again after device
creation (line 172, error propagated with `?`).  Each invocation is an
independent fallible driver call, so each site has its own oracle answer:
`surfaceFormats` for the selection-time call and `surfaceFormatsRequery` for
the post-selection call. -/
structure PhysicalDevice where
  apiVersion : Nat
  deviceName : String
  surfaceFormats : Except Unit (List SurfaceFormatKHR)
  surfaceFormatsRequery : Except Unit (List SurfaceFormatKHR)
  presentModes : Except Unit (List Nat)
  surfaceCaps : Except Unit Nat
  queueFamilies : List Nat
deriving Repr

/-- The environment oracle: the answers of every external collaborator that
`run` consults, in the order the source consults them.  A `Bool` field records
whether the corresponding fallible driver call succeeds. -/
structure Env where
  windowBuild : Except Unit WindowSize
  vkLibraryPath : Option String
  loaderOk : Bool
  requiredInstanceExtensions : Except Unit (List String)
  createInstanceOk : Bool
  createMessengerOk : Bool
  createSurfaceOk : Bool
  physicalDevices : Except Unit (List PhysicalDevice)
  createDeviceOk : Bool
  createSwapchainOk : Bool
  createCommandPoolOk : Bool
  allocCommandBuffersOk : Bool
  createRenderPassOk : Bool

/-- The error taxonomy of `run`, one constructor per `?`/`ok_or_else` exit
point of the source, in source order. -/
inductive RunError where
  | windowFailure
  | configMissing
  | loaderFailure
  | extensionQueryFailure
  | instanceFailure
  | debugMessengerFailure
  | surfaceFailure
  | enumerateDevicesFailure
  | noSuitableDevice
  | noGraphicsQueue
  | deviceFailure
  | surfaceCapabilitiesFailure
  | surfaceFormatsFailure
  | noCompatibleSurfaceFormat
  | swapchainFailure
  | commandPoolFailure
  | commandBufferFailure
  | renderPassFailure
deriving DecidableEq, Repr

/-- The fields of the `vk::SwapchainCreateInfoKHR` built at lines 188-206 of
`main.rs` (the surface handle itself is implicit: only one surface exists). -/
structure SwapchainCreateInfo where
  clipped : Bool
  compositeAlpha : Nat
  flags : Nat
  imageArrayLayers : Nat
  imageColorSpace : Nat
  imageExtentWidth : Nat
  imageExtentHeight : Nat
  imageFormat : Nat
  imageSharingMode : Nat
  imageUsage : Nat
  minImageCount : Nat
  oldSwapchainIsNull : Bool
  preTransform : Nat
  presentMode : Nat
  queueFamilyIndices : List Nat
deriving DecidableEq, Repr

/-- The fields of the `vk::AttachmentDescription` built at lines 229-237. -/
structure AttachmentDescription where
  format : Nat
  initialLayout : Nat
  finalLayout : Nat
  samples : Nat
  stencilLoadOp : Nat
  stencilStoreOp : Nat
  storeOp : Nat
  loadOp : Nat
deriving DecidableEq, Repr

/-- Externally visible events of a run, in chronological order: window/loader
acquisition, each successful GPU object creation (carrying the parameters the
source passes), log output, and each destructor invocation. -/
inductive Event where
  | createWindow (title : String) (width height : Nat)
  | readEnvVar (name : String)
  | createLoader (path : String)
  | createInstance (extensions : List String) (layers : List String) (apiVersion : Nat)
  | createDebugMessenger (severityMask typeMask : Nat)
  | createSurface
  | printDeviceName (name : String)
  | createDevice (queueFamilyIndex : Nat) (extensions : List String)
  | logLine (msg : String)
  | logFormatPair (colorSpace format : Nat)
  | createSwapchain (info : SwapchainCreateInfo)
  | createCommandPool (queueFamilyIndex : Nat) (flags : Nat)
  | allocCommandBuffers (count : Nat) (level : Nat)
  | createRenderPass (attachment : AttachmentDescription)
  | destroyRenderPass
  | destroyCommandPool
  | destroySwapchain
  | destroyDevice
  | destroySurface
  | destroyDebugMessenger
  | destroyInstance
  | destroyLoader
deriving DecidableEq, Repr

/-- The physical-device predicate of lines 120-130: api version at least 1.1,
the surface-formats query succeeds with a non-empty list, and the
present-modes query succeeds with a non-empty list (a failed query counts as
`false` via `unwrap_or(false)`). -/
def suitable (d : PhysicalDevice) : Bool :=
  decide (API_VERSION_1_1 ≤ d.apiVersion)
    && (match d.surfaceFormats with
        | .ok fs => !fs.isEmpty
        | .error _ => false)
    && (match d.presentModes with
        | .ok ms => !ms.isEmpty
        | .error _ => false)

/-- `queue_flags.contains(vk::QueueFlags::GRAPHICS)`. -/
def hasGraphics (flags : Nat) : Bool :=
  decide (flags &&& QUEUE_FLAGS_GRAPHICS = QUEUE_FLAGS_GRAPHICS)

/-- The queue-family search of lines 141-151:
`iter().enumerate().find_map(...)`, i.e. the lowest index whose flags contain
graphics, threading the running index. -/
def findGraphics : List Nat → Nat → Option Nat
  | [], _ => none
  | f :: rest, i => if hasGraphics f then some i else findGraphics rest (i + 1)

/-- The surface-format predicate of line 183:
`format.color_space == vk::ColorSpaceKHR::SRGB_NONLINEAR`. -/
def isSrgbNonlinear (f : SurfaceFormatKHR) : Bool :=
  decide (f.colorSpace = COLOR_SPACE_SRGB_NONLINEAR)

/-- The `vk::SwapchainCreateInfoKHR` of lines 188-206, as a function of the
window size, selected queue family, the surface's minimum image count and the
negotiated surface format. -/
def swapchainInfoOf (window : WindowSize) (qfi : Nat) (mic : Nat)
    (sf : SurfaceFormatKHR) : SwapchainCreateInfo where
  clipped := true
  compositeAlpha := COMPOSITE_ALPHA_OPAQUE
  flags := 0
  imageArrayLayers := 1
  imageColorSpace := sf.colorSpace
  imageExtentWidth := window.width
  imageExtentHeight := window.height
  imageFormat := sf.format
  imageSharingMode := SHARING_MODE_EXCLUSIVE
  imageUsage := IMAGE_USAGE_COLOR_ATTACHMENT
  minImageCount := mic
  oldSwapchainIsNull := true
  preTransform := SURFACE_TRANSFORM_IDENTITY
  presentMode := PRESENT_MODE_FIFO
  queueFamilyIndices := [qfi]

/-- The `color_attachment` description of lines 229-237, as a function of the
negotiated pixel format. -/
def colorAttachment (fmt : Nat) : AttachmentDescription where
  format := fmt
  initialLayout := IMAGE_LAYOUT_UNDEFINED
  finalLayout := IMAGE_LAYOUT_PRESENT_SRC_KHR
  samples := SAMPLE_COUNT_TYPE_1
  stencilLoadOp := ATTACHMENT_LOAD_OP_DONT_CARE
  stencilStoreOp := ATTACHMENT_STORE_OP_DONT_CARE
  storeOp := ATTACHMENT_STORE_OP_STORE
  loadOp := ATTACHMENT_LOAD_OP_CLEAR

/-- The explicit destructor calls of lines 257-265, in source order. -/
def teardownEvents : List Event :=
  [Event.destroyRenderPass, Event.destroyCommandPool, Event.destroySwapchain,
   Event.destroyDevice, Event.destroySurface, Event.destroyDebugMessenger,
   Event.destroyInstance]

/-- `create_render_pass` (lines 248-255) followed, on success, by the explicit
teardown block. -/
def stageRenderPass (env : Env) (fmt : Nat) : Except RunError Unit × List Event :=
  if env.createRenderPassOk then
    (Except.ok (), Event.createRenderPass (colorAttachment fmt) :: teardownEvents)
  else (Except.error RunError.renderPassFailure, [])

/-- `allocate_command_buffers` (lines 220-227): one primary buffer. -/
def stageCommandBuffers (env : Env) (fmt : Nat) : Except RunError Unit × List Event :=
  if env.allocCommandBuffersOk then
    ((stageRenderPass env fmt).1,
      Event.allocCommandBuffers 1 COMMAND_BUFFER_LEVEL_PRIMARY :: (stageRenderPass env fmt).2)
  else (Except.error RunError.commandBufferFailure, [])

/-- `create_command_pool` (lines 211-218) on the graphics family with the
individual-reset flag. -/
def stageCommandPool (env : Env) (qfi : Nat) (fmt : Nat) :
    Except RunError Unit × List Event :=
  if env.createCommandPoolOk then
    ((stageCommandBuffers env fmt).1,
      Event.createCommandPool qfi COMMAND_POOL_RESET_COMMAND_BUFFER
        :: (stageCommandBuffers env fmt).2)
  else (Except.error RunError.commandPoolFailure, [])

/-- `create_swapchain` (lines 186-209). -/
def stageSwapchain (env : Env) (window : WindowSize) (qfi : Nat) (mic : Nat)
    (sf : SurfaceFormatKHR) : Except RunError Unit × List Event :=
  if env.createSwapchainOk then
    ((stageCommandPool env qfi sf.format).1,
      Event.createSwapchain (swapchainInfoOf window qfi mic sf)
        :: (stageCommandPool env qfi sf.format).2)
  else (Except.error RunError.swapchainFailure, [])

/-- Lines 173-183: log every supported (color space, format) pair, then select
the first pair with the sRGB non-linear color space, failing with
`NoCompatibleSurfaceFormat` when there is none. -/
def stageNegotiate (env : Env) (window : WindowSize) (qfi : Nat) (mic : Nat)
    (formats : List SurfaceFormatKHR) : Except RunError Unit × List Event :=
  let logs := Event.logLine "Formats available:"
    :: formats.map (fun f => Event.logFormatPair f.colorSpace f.format)
  match formats.find? isSrgbNonlinear with
  | none => (Except.error RunError.noCompatibleSurfaceFormat, logs)
  | some sf =>
    ((stageSwapchain env window qfi mic sf).1,
      logs ++ (stageSwapchain env window qfi mic sf).2)

/-- Lines 166-172: query the surface capabilities (reading `min_image_count`)
and re-query the surface formats of the selected device, propagating either
query's error with `?`.  The formats call here is a fresh driver invocation,
independent of the selection-time one, hence `surfaceFormatsRequery`. -/
def stageQueries (env : Env) (window : WindowSize) (qfi : Nat)
    (dev : PhysicalDevice) : Except RunError Unit × List Event :=
  match dev.surfaceCaps with
  | .error _ => (Except.error RunError.surfaceCapabilitiesFailure, [])
  | .ok mic =>
    match dev.surfaceFormatsRequery with
    | .error _ => (Except.error RunError.surfaceFormatsFailure, [])
    | .ok formats => stageNegotiate env window qfi mic formats

/-- Lines 138-164: queue-family selection (`NoGraphicsQueue` when no family
has graphics) followed by `create_device` with the swapchain extension. -/
def stageDevice (env : Env) (window : WindowSize) (dev : PhysicalDevice) :
    Except RunError Unit × List Event :=
  match findGraphics dev.queueFamilies 0 with
  | none => (Except.error RunError.noGraphicsQueue, [])
  | some qfi =>
    if env.createDeviceOk then
      ((stageQueries env window qfi dev).1,
        Event.createDevice qfi [VK_KHR_SWAPCHAIN] :: (stageQueries env window qfi dev).2)
    else (Except.error RunError.deviceFailure, [])

/-- Lines 115-136: enumerate the physical devices (propagating the
enumeration error), select the first `suitable` one (failing with
`NoSuitableDevice` when none is), and print its name. -/
def stageSelect (env : Env) (window : WindowSize) : Except RunError Unit × List Event :=
  match env.physicalDevices with
  | .error _ => (Except.error RunError.enumerateDevicesFailure, [])
  | .ok devices =>
    match devices.find? suitable with
    | none => (Except.error RunError.noSuitableDevice, [])
    | some dev =>
      ((stageDevice env window dev).1,
        Event.printDeviceName dev.deviceName :: (stageDevice env window dev).2)

/-- Lines 104-113: `create_surface` through the window library's bridge. -/
def stageSurface (env : Env) (window : WindowSize) : Except RunError Unit × List Event :=
  if env.createSurfaceOk then
    ((stageSelect env window).1, Event.createSurface :: (stageSelect env window).2)
  else (Except.error RunError.surfaceFailure, [])

/-- Lines 85-102: `create_debug_utils_messenger` with all four severities and
the general, performance and validation message types. -/
def stageMessenger (env : Env) (window : WindowSize) : Except RunError Unit × List Event :=
  if env.createMessengerOk then
    ((stageSurface env window).1,
      Event.createDebugMessenger debugSeverityMask debugTypeMask :: (stageSurface env window).2)
  else (Except.error RunError.debugMessengerFailure, [])

/-- Lines 37-58: query the platform-required instance extensions (propagating
the query error), append `VK_KHR_surface` and `VK_EXT_debug_utils`, and create
the instance with the validation layer and API version 1.1. -/
def afterLoader (env : Env) (window : WindowSize) : Except RunError Unit × List Event :=
  match env.requiredInstanceExtensions with
  | .error _ => (Except.error RunError.extensionQueryFailure, [])
  | .ok req =>
    if env.createInstanceOk then
      ((stageMessenger env window).1,
        Event.createInstance (req ++ [VK_KHR_SURFACE, VK_EXT_DEBUG_UTILS])
            [VK_LAYER_KHRONOS_VALIDATION] API_VERSION_1_1
          :: (stageMessenger env window).2)
    else (Except.error RunError.instanceFailure, [])

/-- The whole `run` function (lines 24-268).  The window is built first
(title "Vulkan Test", inner size 1080 by 720); then `VK_LIBRARY_PATH` is read
(`ConfigMissing` when unset) and the loader opened.  Once the loader exists it
is dropped (its destructor runs) on every exit path, success or error, so
`destroyLoader` is appended to the trace of `afterLoader` unconditionally. -/
def run (env : Env) : Except RunError Unit × List Event :=
  match env.windowBuild with
  | .error _ => (Except.error RunError.windowFailure, [])
  | .ok window =>
    match env.vkLibraryPath with
    | none =>
      (Except.error RunError.configMissing,
        [Event.createWindow "Vulkan Test" 1080 720, Event.readEnvVar "VK_LIBRARY_PATH"])
    | some path =>
      if env.loaderOk then
        ((afterLoader env window).1,
          [Event.createWindow "Vulkan Test" 1080 720, Event.readEnvVar "VK_LIBRARY_PATH",
            Event.createLoader path]
            ++ (afterLoader env window).2 ++ [Event.destroyLoader])
      else
        (Except.error RunError.loaderFailure,
          [Event.createWindow "Vulkan Test" 1080 720, Event.readEnvVar "VK_LIBRARY_PATH"])

/-- The debug callback `logger` (lines 61-84), as a pure function from the
(severity, type, message) tuple to the optional log record it emits and its
`Bool32` return value.  The source matches the severity against the four exact
flag constants in the order verbose, info, error, warning, drops anything
else, and returns `vk::FALSE`. -/
inductive LogLevel where
  | debug
  | info
  | warn
  | error
deriving DecidableEq, Repr

/-- The body of the callback: severity-to-level routing plus the constant
`vk::FALSE` return. -/
def logger (severity : Nat) (_ty : Nat) (msg : String) :
    Option (LogLevel × String) × Nat :=
  (if severity = SEVERITY_VERBOSE then some (LogLevel.debug, msg)
   else if severity = SEVERITY_INFO then some (LogLevel.info, msg)
   else if severity = SEVERITY_ERROR then some (LogLevel.error, msg)
   else if severity = SEVERITY_WARNING then some (LogLevel.warn, msg)
   else none,
   VK_FALSE)

/-- The eight destructible handle kinds of the bring-up sequence (command
buffers are released with their pool and physical devices are not owned). -/
inductive HandleKind where
  | loader
  | inst
  | debugMessenger
  | surface
  | device
  | swapchain
  | commandPool
  | renderPass
deriving DecidableEq, Repr

/-- The handle kind an event creates, when it creates one. -/
def Event.createdKind : Event → Option HandleKind
  | .createLoader _ => some HandleKind.loader
  | .createInstance _ _ _ => some HandleKind.inst
  | .createDebugMessenger _ _ => some HandleKind.debugMessenger
  | .createSurface => some HandleKind.surface
  | .createDevice _ _ => some HandleKind.device
  | .createSwapchain _ => some HandleKind.swapchain
  | .createCommandPool _ _ => some HandleKind.commandPool
  | .createRenderPass _ => some HandleKind.renderPass
  | _ => none

/-- The handle kind an event destroys, when it destroys one. -/
def Event.destroyedKind : Event → Option HandleKind
  | .destroyLoader => some HandleKind.loader
  | .destroyInstance => some HandleKind.inst
  | .destroyDebugMessenger => some HandleKind.debugMessenger
  | .destroySurface => some HandleKind.surface
  | .destroyDevice => some HandleKind.device
  | .destroySwapchain => some HandleKind.swapchain
  | .destroyCommandPool => some HandleKind.commandPool
  | .destroyRenderPass => some HandleKind.renderPass
  | _ => none

/-- Creation events of a trace, as handle kinds in chronological order. -/
def createdKinds (es : List Event) : List HandleKind :=
  es.filterMap Event.createdKind

/-- Destruction events of a trace, as handle kinds in chronological order. -/
def destroyedKinds (es : List Event) : List HandleKind :=
  es.filterMap Event.destroyedKind

/-- How many times a trace creates a handle of the given kind. -/
def countCreated (es : List Event) (k : HandleKind) : Nat :=
  (createdKinds es).count k

/-- How many times a trace destroys a handle of the given kind. -/
def countDestroyed (es : List Event) (k : HandleKind) : Nat :=
  (destroyedKinds es).count k

/-- A surface format whose color space is the standard sRGB non-linear one. -/
def happyFormat : SurfaceFormatKHR :=
  { format := FORMAT_B8G8R8A8_UNORM, colorSpace := COLOR_SPACE_SRGB_NONLINEAR }

/-- A physical device that satisfies the selection predicate. -/
def happyDevice : PhysicalDevice where
  apiVersion := API_VERSION_1_1
  deviceName := "dev0"
  surfaceFormats := Except.ok [happyFormat]
  surfaceFormatsRequery := Except.ok [happyFormat]
  presentModes := Except.ok [PRESENT_MODE_FIFO]
  surfaceCaps := Except.ok 2
  queueFamilies := [QUEUE_FLAGS_GRAPHICS]

/-- An environment on which every stage succeeds. -/
def happyEnv : Env where
  windowBuild := Except.ok { width := 1080, height := 720 }
  vkLibraryPath := some "/usr/lib/libvulkan.so"
  loaderOk := true
  requiredInstanceExtensions := Except.ok ["VK_KHR_xlib_surface"]
  createInstanceOk := true
  createMessengerOk := true
  createSurfaceOk := true
  physicalDevices := Except.ok [happyDevice]
  createDeviceOk := true
  createSwapchainOk := true
  createCommandPoolOk := true
  allocCommandBuffersOk := true
  createRenderPassOk := true

/-- The happy environment, except that the driver reports no physical device
at all, so `run` fails with `NoSuitableDevice` after the instance, messenger
and surface have been created. -/
def envNoDevices : Env :=
  { happyEnv with physicalDevices := Except.ok [] }

/-- The happy environment, except that native window creation fails. -/
def envWindowFail : Env :=
  { happyEnv with windowBuild := Except.error () }

/-- The happy environment, except that `VK_LIBRARY_PATH` is unset. -/
def envNoPath : Env :=
  { happyEnv with vkLibraryPath := none }

theorem filterMap_const_none {α β : Type} (l : List α) :
    l.filterMap (fun _ => (none : Option β)) = [] := by
  induction l with
  | nil => rfl
  | cons a t ih => simp [List.filterMap_cons, ih]

theorem filterMap_created_log (l : List SurfaceFormatKHR) :
    List.filterMap (Event.createdKind ∘ fun f => Event.logFormatPair f.colorSpace f.format)
      l = [] := by
  induction l with
  | nil => rfl
  | cons a t ih => simp [List.filterMap_cons, Event.createdKind, Function.comp, ih]

theorem filterMap_destroyed_log (l : List SurfaceFormatKHR) :
    List.filterMap (Event.destroyedKind ∘ fun f => Event.logFormatPair f.colorSpace f.format)
      l = [] := by
  induction l with
  | nil => rfl
  | cons a t ih => simp [List.filterMap_cons, Event.destroyedKind, Function.comp, ih]

/-- C1 (counterexample): the claim says that after `run` returns every GPU
handle created during the run has been destroyed exactly once, but on the
error path the source only drops the loader: with a driver that reports no
physical device, `run` returns `NoSuitableDevice` with the instance created
once and destroyed zero times. -/
theorem c1_counterexample_leak_on_error :
    (run envNoDevices).1 = Except.error RunError.noSuitableDevice ∧
    countCreated (run envNoDevices).2 HandleKind.inst = 1 ∧
    countDestroyed (run envNoDevices).2 HandleKind.inst = 0 :=
  ⟨rfl, rfl, rfl⟩

/-- C1 (amended): after `run` returns successfully, every GPU handle created
during the run has been destroyed exactly once, and the destructions occur in
strict reverse order of construction: render pass, command pool, swapchain,
device, surface, debug messenger, instance, loader. -/
theorem c1_teardown_reverse_order_on_success (env : Env) (h : (run env).1 = Except.ok ()) :
    createdKinds (run env).2 =
      [HandleKind.loader, HandleKind.inst, HandleKind.debugMessenger, HandleKind.surface,
       HandleKind.device, HandleKind.swapchain, HandleKind.commandPool, HandleKind.renderPass] ∧
    destroyedKinds (run env).2 = (createdKinds (run env).2).reverse := by
  rcases hw : env.windowBuild with u | window
  · simp [run, hw] at h
  rcases hp : env.vkLibraryPath with _ | path
  · simp [run, hw, hp] at h
  cases hl : env.loaderOk
  · simp [run, hw, hp, hl] at h
  rcases hre : env.requiredInstanceExtensions with u | req
  · simp [run, afterLoader, hw, hp, hl, hre] at h
  cases hin : env.createInstanceOk
  · simp [run, afterLoader, hw, hp, hl, hre, hin] at h
  cases hme : env.createMessengerOk
  · simp [run, afterLoader, stageMessenger, hw, hp, hl, hre, hin, hme] at h
  cases hsu : env.createSurfaceOk
  · simp [run, afterLoader, stageMessenger, stageSurface, hw, hp, hl, hre, hin, hme, hsu] at h
  rcases hpd : env.physicalDevices with u | ds
  · simp [run, afterLoader, stageMessenger, stageSurface, stageSelect, hw, hp, hl, hre, hin, hme,
      hsu, hpd] at h
  rcases hfind : ds.find? suitable with _ | dev
  · simp [run, afterLoader, stageMessenger, stageSurface, stageSelect, hw, hp, hl, hre, hin, hme,
      hsu, hpd, hfind] at h
  rcases hqf : findGraphics dev.queueFamilies 0 with _ | qfi
  · simp [run, afterLoader, stageMessenger, stageSurface, stageSelect, stageDevice, hw, hp, hl,
      hre, hin, hme, hsu, hpd, hfind, hqf] at h
  cases hde : env.createDeviceOk
  · simp [run, afterLoader, stageMessenger, stageSurface, stageSelect, stageDevice, hw, hp, hl,
      hre, hin, hme, hsu, hpd, hfind, hqf, hde] at h
  rcases hca : dev.surfaceCaps with u | mic
  · simp [run, afterLoader, stageMessenger, stageSurface, stageSelect, stageDevice, stageQueries,
      hw, hp, hl, hre, hin, hme, hsu, hpd, hfind, hqf, hde, hca] at h
  rcases hfo : dev.surfaceFormatsRequery with u | fmts
  · simp [run, afterLoader, stageMessenger, stageSurface, stageSelect, stageDevice, stageQueries,
      hw, hp, hl, hre, hin, hme, hsu, hpd, hfind, hqf, hde, hca, hfo] at h
  rcases hsf : fmts.find? isSrgbNonlinear with _ | sf
  · simp [run, afterLoader, stageMessenger, stageSurface, stageSelect, stageDevice, stageQueries,
      stageNegotiate, hw, hp, hl, hre, hin, hme, hsu, hpd, hfind, hqf, hde, hca, hfo, hsf] at h
  cases hsw : env.createSwapchainOk
  · simp [run, afterLoader, stageMessenger, stageSurface, stageSelect, stageDevice, stageQueries,
      stageNegotiate, stageSwapchain, hw, hp, hl, hre, hin, hme, hsu, hpd, hfind, hqf, hde, hca,
      hfo, hsf, hsw] at h
  cases hcp : env.createCommandPoolOk
  · simp [run, afterLoader, stageMessenger, stageSurface, stageSelect, stageDevice, stageQueries,
      stageNegotiate, stageSwapchain, stageCommandPool, hw, hp, hl, hre, hin, hme, hsu, hpd,
      hfind, hqf, hde, hca, hfo, hsf, hsw, hcp] at h
  cases hcb : env.allocCommandBuffersOk
  · simp [run, afterLoader, stageMessenger, stageSurface, stageSelect, stageDevice, stageQueries,
      stageNegotiate, stageSwapchain, stageCommandPool, stageCommandBuffers, hw, hp, hl, hre,
      hin, hme, hsu, hpd, hfind, hqf, hde, hca, hfo, hsf, hsw, hcp, hcb] at h
  cases hrp : env.createRenderPassOk
  · simp [run, afterLoader, stageMessenger, stageSurface, stageSelect, stageDevice, stageQueries,
      stageNegotiate, stageSwapchain, stageCommandPool, stageCommandBuffers, stageRenderPass, hw,
      hp, hl, hre, hin, hme, hsu, hpd, hfind, hqf, hde, hca, hfo, hsf, hsw, hcp, hcb, hrp] at h
  simp [run, afterLoader, stageMessenger, stageSurface, stageSelect, stageDevice, stageQueries,
    stageNegotiate, stageSwapchain, stageCommandPool, stageCommandBuffers, stageRenderPass,
    teardownEvents, hw, hp, hl, hre, hin, hme, hsu, hpd, hfind, hqf, hde, hca, hfo, hsf, hsw,
    hcp, hcb, hrp, createdKinds, destroyedKinds, Event.createdKind, Event.destroyedKind,
    List.filterMap_append, List.filterMap_cons, filterMap_created_log, filterMap_destroyed_log]

theorem c1_teardown_reverse_order_on_success_witness :
    (run happyEnv).1 = Except.ok () ∧
    (createdKinds (run happyEnv).2 =
      [HandleKind.loader, HandleKind.inst, HandleKind.debugMessenger, HandleKind.surface,
       HandleKind.device, HandleKind.swapchain, HandleKind.commandPool, HandleKind.renderPass] ∧
     destroyedKinds (run happyEnv).2 = (createdKinds (run happyEnv).2).reverse) :=
  ⟨rfl, c1_teardown_reverse_order_on_success happyEnv rfl⟩

/-- C10: the native window (title "Vulkan Test", initial size 1080 by 720) is
created before `VK_LIBRARY_PATH` is read; on a window-creation failure `run`
reports `WindowFailure` (not the missing-variable error) with no loader or GPU
call; when the variable is unset the window already exists and `run` stops at
`ConfigMissing` with no loader or GPU call attempted. -/
theorem c10_window_before_env (env : Env) :
    (∀ window, env.windowBuild = Except.ok window →
      ∃ tail, (run env).2 =
        Event.createWindow "Vulkan Test" 1080 720 :: Event.readEnvVar "VK_LIBRARY_PATH"
          :: tail) ∧
    (∀ u, env.windowBuild = Except.error u →
      run env = (Except.error RunError.windowFailure, [])) ∧
    (∀ window, env.windowBuild = Except.ok window → env.vkLibraryPath = none →
      run env = (Except.error RunError.configMissing,
        [Event.createWindow "Vulkan Test" 1080 720, Event.readEnvVar "VK_LIBRARY_PATH"])) := by
  refine ⟨?_, ?_, ?_⟩
  · intro window hw
    rcases hp : env.vkLibraryPath with _ | path
    · exact ⟨[], by simp [run, hw, hp]⟩
    cases hl : env.loaderOk
    · exact ⟨[], by simp [run, hw, hp, hl]⟩
    · exact ⟨Event.createLoader path :: ((afterLoader env window).2 ++ [Event.destroyLoader]),
        by simp [run, hw, hp, hl]⟩
  · intro u hw
    simp [run, hw]
  · intro window hw hp
    simp [run, hw, hp]

theorem c10_window_before_env_witness :
    (∃ tail, (run happyEnv).2 =
      Event.createWindow "Vulkan Test" 1080 720 :: Event.readEnvVar "VK_LIBRARY_PATH"
        :: tail) ∧
    run envWindowFail = (Except.error RunError.windowFailure, []) ∧
    run envNoPath = (Except.error RunError.configMissing,
      [Event.createWindow "Vulkan Test" 1080 720, Event.readEnvVar "VK_LIBRARY_PATH"]) :=
  ⟨(c10_window_before_env happyEnv).1 { width := 1080, height := 720 } rfl,
   (c10_window_before_env envWindowFail).2.1 () rfl,
   (c10_window_before_env envNoPath).2.2 { width := 1080, height := 720 } rfl rfl⟩

/-- C5: the instance-extension list passed to `create_instance` is exactly the
platform-required list with `VK_KHR_surface` and `VK_EXT_debug_utils`
appended; as a set it is the union of the three, a superset of the required
list, and always contains the two fixed extensions. -/
theorem c5_instance_extensions (env : Env) (window : WindowSize) (path : String)
    (req : List String)
    (hw : env.windowBuild = Except.ok window) (hp : env.vkLibraryPath = some path)
    (hl : env.loaderOk = true) (hre : env.requiredInstanceExtensions = Except.ok req)
    (hin : env.createInstanceOk = true) :
    Event.createInstance (req ++ [VK_KHR_SURFACE, VK_EXT_DEBUG_UTILS])
        [VK_LAYER_KHRONOS_VALIDATION] API_VERSION_1_1 ∈ (run env).2 ∧
    (∀ s, s ∈ req ++ [VK_KHR_SURFACE, VK_EXT_DEBUG_UTILS] ↔
      (s ∈ req ∨ s = VK_KHR_SURFACE ∨ s = VK_EXT_DEBUG_UTILS)) ∧
    req ⊆ req ++ [VK_KHR_SURFACE, VK_EXT_DEBUG_UTILS] ∧
    VK_KHR_SURFACE ∈ req ++ [VK_KHR_SURFACE, VK_EXT_DEBUG_UTILS] ∧
    VK_EXT_DEBUG_UTILS ∈ req ++ [VK_KHR_SURFACE, VK_EXT_DEBUG_UTILS] := by
  refine ⟨?_, ?_, ?_, ?_, ?_⟩
  · simp [run, hw, hp, hl, afterLoader, hre, hin, List.mem_append]
  · intro s
    simp [List.mem_append]
  · exact List.subset_append_left req _
  · simp
  · simp

theorem c5_instance_extensions_witness :
    Event.createInstance
        (["VK_KHR_xlib_surface"] ++ [VK_KHR_SURFACE, VK_EXT_DEBUG_UTILS])
        [VK_LAYER_KHRONOS_VALIDATION] API_VERSION_1_1 ∈ (run happyEnv).2 ∧
    VK_KHR_SURFACE ∈ ["VK_KHR_xlib_surface"] ++ [VK_KHR_SURFACE, VK_EXT_DEBUG_UTILS] :=
  ⟨(c5_instance_extensions happyEnv { width := 1080, height := 720 } "/usr/lib/libvulkan.so"
      ["VK_KHR_xlib_surface"] rfl rfl rfl rfl rfl).1,
   (c5_instance_extensions happyEnv { width := 1080, height := 720 } "/usr/lib/libvulkan.so"
      ["VK_KHR_xlib_surface"] rfl rfl rfl rfl rfl).2.2.2.1⟩

/-- C8: the debug callback maps severity Verbose to Debug, Info to Info,
Warning to Warn and Error to Error, drops every other severity value, and
always returns `vk::FALSE`; the messenger is registered for the general,
validation and performance message types. -/
theorem c8_debug_callback :
    (∀ t m, logger SEVERITY_VERBOSE t m = (some (LogLevel.debug, m), VK_FALSE)) ∧
    (∀ t m, logger SEVERITY_INFO t m = (some (LogLevel.info, m), VK_FALSE)) ∧
    (∀ t m, logger SEVERITY_WARNING t m = (some (LogLevel.warn, m), VK_FALSE)) ∧
    (∀ t m, logger SEVERITY_ERROR t m = (some (LogLevel.error, m), VK_FALSE)) ∧
    (∀ s t m, s ≠ SEVERITY_VERBOSE → s ≠ SEVERITY_INFO → s ≠ SEVERITY_WARNING →
      s ≠ SEVERITY_ERROR → logger s t m = (none, VK_FALSE)) ∧
    (∀ s t m, (logger s t m).2 = VK_FALSE) ∧
    (∀ env : Env, ∀ window path req, env.windowBuild = Except.ok window →
      env.vkLibraryPath = some path → env.loaderOk = true →
      env.requiredInstanceExtensions = Except.ok req → env.createInstanceOk = true →
      env.createMessengerOk = true →
      Event.createDebugMessenger debugSeverityMask debugTypeMask ∈ (run env).2 ∧
      debugTypeMask = TYPE_GENERAL ||| TYPE_VALIDATION ||| TYPE_PERFORMANCE) := by
  refine ⟨fun t m => rfl, fun t m => rfl, fun t m => rfl, fun t m => rfl, ?_, fun s t m => rfl,
    ?_⟩
  · intro s t m h1 h2 h3 h4
    simp [logger, h1, h2, h3, h4]
  · intro env window path req hw hp hl hre hin hme
    constructor
    · simp [run, hw, hp, hl, afterLoader, hre, hin, stageMessenger, hme, List.mem_append]
    · rfl

theorem c8_debug_callback_witness :
    logger SEVERITY_VERBOSE TYPE_GENERAL "msg" = (some (LogLevel.debug, "msg"), VK_FALSE) ∧
    logger 2 TYPE_GENERAL "msg" = (none, VK_FALSE) ∧
    Event.createDebugMessenger debugSeverityMask debugTypeMask ∈ (run happyEnv).2 :=
  ⟨c8_debug_callback.1 TYPE_GENERAL "msg",
   c8_debug_callback.2.2.2.2.1 2 TYPE_GENERAL "msg" (by decide) (by decide) (by decide)
     (by decide),
   (c8_debug_callback.2.2.2.2.2.2 happyEnv { width := 1080, height := 720 }
     "/usr/lib/libvulkan.so" ["VK_KHR_xlib_surface"] rfl rfl rfl rfl rfl rfl).1⟩

/-- C2: physical-device selection picks the first enumerated device whose
api version is at least 1.1 and which reports a non-empty surface-format list
and a non-empty present-mode list; when no device qualifies, `run` fails with
`NoSuitableDevice`; the selected device's name is printed. -/
theorem c2_physical_device_selection (env : Env) (window : WindowSize) (path : String)
    (req : List String) (ds : List PhysicalDevice)
    (hw : env.windowBuild = Except.ok window) (hp : env.vkLibraryPath = some path)
    (hl : env.loaderOk = true) (hre : env.requiredInstanceExtensions = Except.ok req)
    (hin : env.createInstanceOk = true) (hme : env.createMessengerOk = true)
    (hsu : env.createSurfaceOk = true) (hpd : env.physicalDevices = Except.ok ds) :
    (∀ d : PhysicalDevice, suitable d = true ↔
      (API_VERSION_1_1 ≤ d.apiVersion ∧
        (∃ fs, d.surfaceFormats = Except.ok fs ∧ fs ≠ []) ∧
        (∃ ms, d.presentModes = Except.ok ms ∧ ms ≠ []))) ∧
    (ds.find? suitable = none → (run env).1 = Except.error RunError.noSuitableDevice) ∧
    (∀ dev, ds.find? suitable = some dev →
      suitable dev = true ∧
      (∃ pre post, ds = pre ++ dev :: post ∧ ∀ d ∈ pre, suitable d = false) ∧
      Event.printDeviceName dev.deviceName ∈ (run env).2) := by
  refine ⟨?_, ?_, ?_⟩
  · intro d
    rcases hfs : d.surfaceFormats with u | fs <;> rcases hms : d.presentModes with v | ms <;>
      simp [suitable, hfs, hms, List.isEmpty_iff, and_assoc]
  · intro hnone
    simp [run, hw, hp, hl, afterLoader, hre, hin, stageMessenger, hme, stageSurface, hsu,
      stageSelect, hpd, hnone]
  · intro dev hfind
    obtain ⟨hps, pre, post, hsplit, hall⟩ := List.find?_eq_some.mp hfind
    refine ⟨hps, ⟨pre, post, hsplit, ?_⟩, ?_⟩
    · intro d hd
      simpa using hall d hd
    · simp [run, hw, hp, hl, afterLoader, hre, hin, stageMessenger, hme, stageSurface, hsu,
        stageSelect, hpd, hfind, List.mem_append]

theorem c2_physical_device_selection_witness :
    suitable happyDevice = true ∧
    (∃ pre post, [happyDevice] = pre ++ happyDevice :: post ∧
      ∀ d ∈ pre, suitable d = false) ∧
    Event.printDeviceName happyDevice.deviceName ∈ (run happyEnv).2 :=
  (c2_physical_device_selection happyEnv { width := 1080, height := 720 }
    "/usr/lib/libvulkan.so" ["VK_KHR_xlib_surface"] [happyDevice]
    rfl rfl rfl rfl rfl rfl rfl rfl).2.2 happyDevice rfl

theorem findGraphics_eq_none :
    ∀ (l : List Nat) (s : Nat), (∀ f ∈ l, hasGraphics f = false) → findGraphics l s = none := by
  intro l
  induction l with
  | nil => intro s h; rfl
  | cons a t ih =>
    intro s h
    have ha := h a (List.mem_cons_self a t)
    simp [findGraphics, ha]
    exact ih (s + 1) (fun f hf => h f (List.mem_cons_of_mem a hf))

theorem findGraphics_eq_some :
    ∀ (l : List Nat) (s i : Nat), findGraphics l s = some i →
      ∃ pre f post, l = pre ++ f :: post ∧ i = s + pre.length ∧ hasGraphics f = true ∧
        ∀ g ∈ pre, hasGraphics g = false := by
  intro l
  induction l with
  | nil => intro s i h; simp [findGraphics] at h
  | cons a t ih =>
    intro s i h
    by_cases ha : hasGraphics a
    · have hsi : s = i := by simpa [findGraphics, ha] using h
      exact ⟨[], a, t, rfl, by simp [hsi], ha, by simp⟩
    · rw [findGraphics, if_neg ha] at h
      obtain ⟨pre, f, post, hsplit, hi, hf, hall⟩ := ih (s + 1) i h
      refine ⟨a :: pre, f, post, by simp [hsplit], by simp [hi]; omega, hf, ?_⟩
      intro g hg
      rcases List.mem_cons.mp hg with rfl | hg
      · simpa using ha
      · exact hall g hg

/-- C3: queue-family selection picks the lowest-index family of the selected
device whose flags contain graphics (that index is the one passed to
`create_device`); when no family has graphics, `run` fails with
`NoGraphicsQueue`. -/
theorem c3_queue_family_selection (env : Env) (window : WindowSize) (path : String)
    (req : List String) (ds : List PhysicalDevice) (dev : PhysicalDevice)
    (hw : env.windowBuild = Except.ok window) (hp : env.vkLibraryPath = some path)
    (hl : env.loaderOk = true) (hre : env.requiredInstanceExtensions = Except.ok req)
    (hin : env.createInstanceOk = true) (hme : env.createMessengerOk = true)
    (hsu : env.createSurfaceOk = true) (hpd : env.physicalDevices = Except.ok ds)
    (hfind : ds.find? suitable = some dev) (hde : env.createDeviceOk = true) :
    ((∀ f ∈ dev.queueFamilies, hasGraphics f = false) →
      (run env).1 = Except.error RunError.noGraphicsQueue) ∧
    (∀ i, findGraphics dev.queueFamilies 0 = some i →
      ∃ pre f post, dev.queueFamilies = pre ++ f :: post ∧ i = pre.length ∧
        hasGraphics f = true ∧ (∀ g ∈ pre, hasGraphics g = false) ∧
        Event.createDevice i [VK_KHR_SWAPCHAIN] ∈ (run env).2) := by
  refine ⟨?_, ?_⟩
  · intro hall
    have hqf := findGraphics_eq_none dev.queueFamilies 0 hall
    simp [run, hw, hp, hl, afterLoader, hre, hin, stageMessenger, hme, stageSurface, hsu,
      stageSelect, hpd, hfind, stageDevice, hqf]
  · intro i hqf
    obtain ⟨pre, f, post, hsplit, hip, hf, hall⟩ := findGraphics_eq_some dev.queueFamilies 0 i hqf
    refine ⟨pre, f, post, hsplit, by omega, hf, hall, ?_⟩
    simp [run, hw, hp, hl, afterLoader, hre, hin, stageMessenger, hme, stageSurface, hsu,
      stageSelect, hpd, hfind, stageDevice, hqf, hde, List.mem_append]

theorem c3_queue_family_selection_witness :
    ∃ pre f post, happyDevice.queueFamilies = pre ++ f :: post ∧ 0 = pre.length ∧
      hasGraphics f = true ∧ (∀ g ∈ pre, hasGraphics g = false) ∧
      Event.createDevice 0 [VK_KHR_SWAPCHAIN] ∈ (run happyEnv).2 :=
  (c3_queue_family_selection happyEnv { width := 1080, height := 720 }
    "/usr/lib/libvulkan.so" ["VK_KHR_xlib_surface"] [happyDevice] happyDevice
    rfl rfl rfl rfl rfl rfl rfl rfl rfl rfl).2 0 rfl

theorem stageNegotiate_log_events (env : Env) (window : WindowSize) (qfi mic : Nat)
    (formats : List SurfaceFormatKHR) :
    ∃ tail, (stageNegotiate env window qfi mic formats).2 =
      (Event.logLine "Formats available:"
        :: formats.map (fun f => Event.logFormatPair f.colorSpace f.format)) ++ tail := by
  rcases hsf : formats.find? isSrgbNonlinear with _ | sf
  · exact ⟨[], by simp [stageNegotiate, hsf]⟩
  · exact ⟨(stageSwapchain env window qfi mic sf).2, by simp [stageNegotiate, hsf]⟩

/-- C4: surface-format negotiation logs every supported (color space, format)
pair of the selected device, then selects the first pair whose color space is
the standard non-linear sRGB one; when no pair has that color space, `run`
fails with `NoCompatibleSurfaceFormat`. -/
theorem c4_surface_format_negotiation (env : Env) (window : WindowSize) (path : String)
    (req : List String) (ds : List PhysicalDevice) (dev : PhysicalDevice) (qfi mic : Nat)
    (fmts : List SurfaceFormatKHR)
    (hw : env.windowBuild = Except.ok window) (hp : env.vkLibraryPath = some path)
    (hl : env.loaderOk = true) (hre : env.requiredInstanceExtensions = Except.ok req)
    (hin : env.createInstanceOk = true) (hme : env.createMessengerOk = true)
    (hsu : env.createSurfaceOk = true) (hpd : env.physicalDevices = Except.ok ds)
    (hfind : ds.find? suitable = some dev)
    (hqf : findGraphics dev.queueFamilies 0 = some qfi)
    (hde : env.createDeviceOk = true) (hca : dev.surfaceCaps = Except.ok mic)
    (hfo : dev.surfaceFormatsRequery = Except.ok fmts) :
    (∃ pre post, (run env).2 =
      pre ++ fmts.map (fun f => Event.logFormatPair f.colorSpace f.format) ++ post) ∧
    (fmts.find? isSrgbNonlinear = none →
      (run env).1 = Except.error RunError.noCompatibleSurfaceFormat) ∧
    (∀ sf, fmts.find? isSrgbNonlinear = some sf →
      sf.colorSpace = COLOR_SPACE_SRGB_NONLINEAR ∧
      ∃ pre post, fmts = pre ++ sf :: post ∧
        ∀ f ∈ pre, f.colorSpace ≠ COLOR_SPACE_SRGB_NONLINEAR) := by
  refine ⟨?_, ?_, ?_⟩
  · obtain ⟨tail, htail⟩ := stageNegotiate_log_events env window qfi mic fmts
    refine ⟨[Event.createWindow "Vulkan Test" 1080 720, Event.readEnvVar "VK_LIBRARY_PATH",
      Event.createLoader path,
      Event.createInstance (req ++ [VK_KHR_SURFACE, VK_EXT_DEBUG_UTILS])
        [VK_LAYER_KHRONOS_VALIDATION] API_VERSION_1_1,
      Event.createDebugMessenger debugSeverityMask debugTypeMask, Event.createSurface,
      Event.printDeviceName dev.deviceName, Event.createDevice qfi [VK_KHR_SWAPCHAIN],
      Event.logLine "Formats available:"], tail ++ [Event.destroyLoader], ?_⟩
    simp [run, hw, hp, hl, afterLoader, hre, hin, stageMessenger, hme, stageSurface, hsu,
      stageSelect, hpd, hfind, stageDevice, hqf, hde, stageQueries, hca, hfo, htail]
  · intro hnone
    simp [run, hw, hp, hl, afterLoader, hre, hin, stageMessenger, hme, stageSurface, hsu,
      stageSelect, hpd, hfind, stageDevice, hqf, hde, stageQueries, hca, hfo, stageNegotiate,
      hnone]
  · intro sf hsf
    obtain ⟨hps, pre, post, hsplit, hall⟩ := List.find?_eq_some.mp hsf
    refine ⟨by simpa [isSrgbNonlinear] using hps, pre, post, hsplit, ?_⟩
    intro f hf
    simpa [isSrgbNonlinear] using hall f hf

theorem c4_surface_format_negotiation_witness :
    (∃ pre post, (run happyEnv).2 =
      pre ++ [happyFormat].map (fun f => Event.logFormatPair f.colorSpace f.format) ++ post) ∧
    (happyFormat.colorSpace = COLOR_SPACE_SRGB_NONLINEAR ∧
      ∃ pre post, [happyFormat] = pre ++ happyFormat :: post ∧
        ∀ f ∈ pre, f.colorSpace ≠ COLOR_SPACE_SRGB_NONLINEAR) :=
  ⟨(c4_surface_format_negotiation happyEnv { width := 1080, height := 720 }
      "/usr/lib/libvulkan.so" ["VK_KHR_xlib_surface"] [happyDevice] happyDevice 0 2
      [happyFormat] rfl rfl rfl rfl rfl rfl rfl rfl rfl rfl rfl rfl rfl).1,
   (c4_surface_format_negotiation happyEnv { width := 1080, height := 720 }
      "/usr/lib/libvulkan.so" ["VK_KHR_xlib_surface"] [happyDevice] happyDevice 0 2
      [happyFormat] rfl rfl rfl rfl rfl rfl rfl rfl rfl rfl rfl rfl rfl).2.2 happyFormat rfl⟩

/-- C6: the pixel format used to create the swapchain and the format of the
render pass color attachment both equal the format of the surface format
selected during negotiation. -/
theorem c6_format_consistency (env : Env) (window : WindowSize) (path : String)
    (req : List String) (ds : List PhysicalDevice) (dev : PhysicalDevice) (qfi mic : Nat)
    (fmts : List SurfaceFormatKHR) (sf : SurfaceFormatKHR)
    (hw : env.windowBuild = Except.ok window) (hp : env.vkLibraryPath = some path)
    (hl : env.loaderOk = true) (hre : env.requiredInstanceExtensions = Except.ok req)
    (hin : env.createInstanceOk = true) (hme : env.createMessengerOk = true)
    (hsu : env.createSurfaceOk = true) (hpd : env.physicalDevices = Except.ok ds)
    (hfind : ds.find? suitable = some dev)
    (hqf : findGraphics dev.queueFamilies 0 = some qfi)
    (hde : env.createDeviceOk = true) (hca : dev.surfaceCaps = Except.ok mic)
    (hfo : dev.surfaceFormatsRequery = Except.ok fmts)
    (hsf : fmts.find? isSrgbNonlinear = some sf)
    (hsw : env.createSwapchainOk = true) (hcp : env.createCommandPoolOk = true)
    (hcb : env.allocCommandBuffersOk = true) (hrp : env.createRenderPassOk = true) :
    Event.createSwapchain (swapchainInfoOf window qfi mic sf) ∈ (run env).2 ∧
    Event.createRenderPass (colorAttachment sf.format) ∈ (run env).2 ∧
    (swapchainInfoOf window qfi mic sf).imageFormat = sf.format ∧
    (colorAttachment sf.format).format = sf.format := by
  refine ⟨?_, ?_, rfl, rfl⟩
  · simp [run, hw, hp, hl, afterLoader, hre, hin, stageMessenger, hme, stageSurface, hsu,
      stageSelect, hpd, hfind, stageDevice, hqf, hde, stageQueries, hca, hfo, stageNegotiate,
      hsf, stageSwapchain, hsw, List.mem_append]
  · simp [run, hw, hp, hl, afterLoader, hre, hin, stageMessenger, hme, stageSurface, hsu,
      stageSelect, hpd, hfind, stageDevice, hqf, hde, stageQueries, hca, hfo, stageNegotiate,
      hsf, stageSwapchain, hsw, stageCommandPool, hcp, stageCommandBuffers, hcb,
      stageRenderPass, hrp, List.mem_append]

theorem c6_format_consistency_witness :
    Event.createSwapchain (swapchainInfoOf { width := 1080, height := 720 } 0 2 happyFormat)
        ∈ (run happyEnv).2 ∧
    Event.createRenderPass (colorAttachment happyFormat.format) ∈ (run happyEnv).2 ∧
    (swapchainInfoOf { width := 1080, height := 720 } 0 2 happyFormat).imageFormat =
      happyFormat.format ∧
    (colorAttachment happyFormat.format).format = happyFormat.format :=
  c6_format_consistency happyEnv { width := 1080, height := 720 } "/usr/lib/libvulkan.so"
    ["VK_KHR_xlib_surface"] [happyDevice] happyDevice 0 2 [happyFormat] happyFormat
    rfl rfl rfl rfl rfl rfl rfl rfl rfl rfl rfl rfl rfl rfl rfl rfl rfl rfl

/-- C7: the swapchain is created with extent equal to the window's inner
size, the surface's minimum image count, exclusive sharing on the single
selected graphics family, FIFO present mode, opaque composite alpha, identity
pre-transform, one array layer, color-attachment usage, clipped true and no
old swapchain. -/
theorem c7_swapchain_configuration (env : Env) (window : WindowSize) (path : String)
    (req : List String) (ds : List PhysicalDevice) (dev : PhysicalDevice) (qfi mic : Nat)
    (fmts : List SurfaceFormatKHR) (sf : SurfaceFormatKHR)
    (hw : env.windowBuild = Except.ok window) (hp : env.vkLibraryPath = some path)
    (hl : env.loaderOk = true) (hre : env.requiredInstanceExtensions = Except.ok req)
    (hin : env.createInstanceOk = true) (hme : env.createMessengerOk = true)
    (hsu : env.createSurfaceOk = true) (hpd : env.physicalDevices = Except.ok ds)
    (hfind : ds.find? suitable = some dev)
    (hqf : findGraphics dev.queueFamilies 0 = some qfi)
    (hde : env.createDeviceOk = true) (hca : dev.surfaceCaps = Except.ok mic)
    (hfo : dev.surfaceFormatsRequery = Except.ok fmts)
    (hsf : fmts.find? isSrgbNonlinear = some sf)
    (hsw : env.createSwapchainOk = true) :
    ∃ info, Event.createSwapchain info ∈ (run env).2 ∧
      info = swapchainInfoOf window qfi mic sf ∧
      info.imageExtentWidth = window.width ∧ info.imageExtentHeight = window.height ∧
      info.minImageCount = mic ∧ info.imageSharingMode = SHARING_MODE_EXCLUSIVE ∧
      info.queueFamilyIndices = [qfi] ∧ info.presentMode = PRESENT_MODE_FIFO ∧
      info.compositeAlpha = COMPOSITE_ALPHA_OPAQUE ∧
      info.preTransform = SURFACE_TRANSFORM_IDENTITY ∧
      info.imageArrayLayers = 1 ∧ info.imageUsage = IMAGE_USAGE_COLOR_ATTACHMENT ∧
      info.imageFormat = sf.format ∧ info.imageColorSpace = sf.colorSpace ∧
      info.clipped = true ∧ info.oldSwapchainIsNull = true ∧ info.flags = 0 := by
  refine ⟨swapchainInfoOf window qfi mic sf, ?_, rfl, rfl, rfl, rfl, rfl, rfl, rfl, rfl, rfl,
    rfl, rfl, rfl, rfl, rfl, rfl, rfl⟩
  simp [run, hw, hp, hl, afterLoader, hre, hin, stageMessenger, hme, stageSurface, hsu,
    stageSelect, hpd, hfind, stageDevice, hqf, hde, stageQueries, hca, hfo, stageNegotiate,
    hsf, stageSwapchain, hsw, List.mem_append]

theorem c7_swapchain_configuration_witness :
    ∃ info, Event.createSwapchain info ∈ (run happyEnv).2 ∧
      info = swapchainInfoOf { width := 1080, height := 720 } 0 2 happyFormat ∧
      info.imageExtentWidth = 1080 ∧ info.imageExtentHeight = 720 ∧
      info.minImageCount = 2 ∧ info.imageSharingMode = SHARING_MODE_EXCLUSIVE ∧
      info.queueFamilyIndices = [0] ∧ info.presentMode = PRESENT_MODE_FIFO ∧
      info.compositeAlpha = COMPOSITE_ALPHA_OPAQUE ∧
      info.preTransform = SURFACE_TRANSFORM_IDENTITY ∧
      info.imageArrayLayers = 1 ∧ info.imageUsage = IMAGE_USAGE_COLOR_ATTACHMENT ∧
      info.imageFormat = happyFormat.format ∧ info.imageColorSpace = happyFormat.colorSpace ∧
      info.clipped = true ∧ info.oldSwapchainIsNull = true ∧ info.flags = 0 :=
  c7_swapchain_configuration happyEnv { width := 1080, height := 720 } "/usr/lib/libvulkan.so"
    ["VK_KHR_xlib_surface"] [happyDevice] happyDevice 0 2 [happyFormat] happyFormat
    rfl rfl rfl rfl rfl rfl rfl rfl rfl rfl rfl rfl rfl rfl rfl

/-- C9: during physical-device selection, a device whose surface-formats or
present-modes query fails is treated as unsuitable and selection continues
with the next device; a selection-time query error is never propagated out of
`run`: even when every enumerated device suffers such a query error, `run`
fails with `NoSuitableDevice` and nothing else. -/
theorem c9_selection_query_errors :
    (∀ d : PhysicalDevice,
      (d.surfaceFormats = Except.error () ∨ d.presentModes = Except.error ()) →
      suitable d = false) ∧
    (∀ (d : PhysicalDevice) (ds : List PhysicalDevice), suitable d = false →
      List.find? suitable (d :: ds) = List.find? suitable ds) ∧
    (∀ env : Env, ∀ window path req ds,
      env.windowBuild = Except.ok window → env.vkLibraryPath = some path →
      env.loaderOk = true → env.requiredInstanceExtensions = Except.ok req →
      env.createInstanceOk = true → env.createMessengerOk = true →
      env.createSurfaceOk = true → env.physicalDevices = Except.ok ds →
      (∀ d ∈ ds, d.surfaceFormats = Except.error () ∨ d.presentModes = Except.error ()) →
      (run env).1 = Except.error RunError.noSuitableDevice) := by
  refine ⟨?_, ?_, ?_⟩
  · rintro d (hf | hm)
    · simp [suitable, hf]
    · simp [suitable, hm]
  · intro d ds hd
    exact List.find?_cons_of_neg ds (by simp [hd])
  · intro env window path req ds hw hp hl hre hin hme hsu hpd hbad
    have hnone : ds.find? suitable = none := by
      rw [List.find?_eq_none]
      intro d hd
      have hfalse : suitable d = false := by
        rcases hbad d hd with hf | hm
        · simp [suitable, hf]
        · simp [suitable, hm]
      simp [hfalse]
    simp [run, hw, hp, hl, afterLoader, hre, hin, stageMessenger, hme, stageSurface, hsu,
      stageSelect, hpd, hnone]

/-- A device whose selection-time surface-formats query errors, used to
witness C9. -/
def deviceBadFormats : PhysicalDevice where
  apiVersion := API_VERSION_1_1
  deviceName := "bad"
  surfaceFormats := Except.error ()
  surfaceFormatsRequery := Except.error ()
  presentModes := Except.ok [PRESENT_MODE_FIFO]
  surfaceCaps := Except.ok 2
  queueFamilies := [QUEUE_FLAGS_GRAPHICS]

/-- A device whose present-modes query errors, used to witness C9. -/
def deviceBadModes : PhysicalDevice where
  apiVersion := API_VERSION_1_1
  deviceName := "badmodes"
  surfaceFormats := Except.ok [happyFormat]
  surfaceFormatsRequery := Except.ok [happyFormat]
  presentModes := Except.error ()
  surfaceCaps := Except.ok 2
  queueFamilies := [QUEUE_FLAGS_GRAPHICS]

/-- The happy environment, except that every enumerated device has a failing
selection-time query. -/
def envAllBadDevices : Env :=
  { happyEnv with physicalDevices := Except.ok [deviceBadFormats, deviceBadModes] }

theorem c9_selection_query_errors_witness :
    suitable deviceBadFormats = false ∧
    List.find? suitable (deviceBadFormats :: [happyDevice]) =
      List.find? suitable [happyDevice] ∧
    (run envAllBadDevices).1 = Except.error RunError.noSuitableDevice :=
  ⟨c9_selection_query_errors.1 deviceBadFormats (Or.inl rfl),
   c9_selection_query_errors.2.1 deviceBadFormats [happyDevice]
     (c9_selection_query_errors.1 deviceBadFormats (Or.inl rfl)),
   c9_selection_query_errors.2.2 envAllBadDevices { width := 1080, height := 720 }
     "/usr/lib/libvulkan.so" ["VK_KHR_xlib_surface"] [deviceBadFormats, deviceBadModes]
     rfl rfl rfl rfl rfl rfl rfl rfl
     (by
       intro d hd
       rcases List.mem_cons.mp hd with rfl | hd
       · exact Or.inl rfl
       rcases List.mem_cons.mp hd with rfl | hd
       · exact Or.inr rfl
       · exact absurd hd (List.not_mem_nil d))⟩

/-- In contrast to the selection-time query, the post-selection
surface-formats query of line 172 is an independent driver call whose error
`run` does propagate with `?`: when the selected device's re-query fails,
`run` returns the formats-query error. -/
theorem requery_error_propagates (env : Env) (window : WindowSize) (path : String)
    (req : List String) (ds : List PhysicalDevice) (dev : PhysicalDevice) (qfi mic : Nat)
    (hw : env.windowBuild = Except.ok window) (hp : env.vkLibraryPath = some path)
    (hl : env.loaderOk = true) (hre : env.requiredInstanceExtensions = Except.ok req)
    (hin : env.createInstanceOk = true) (hme : env.createMessengerOk = true)
    (hsu : env.createSurfaceOk = true) (hpd : env.physicalDevices = Except.ok ds)
    (hfind : ds.find? suitable = some dev)
    (hqf : findGraphics dev.queueFamilies 0 = some qfi)
    (hde : env.createDeviceOk = true) (hca : dev.surfaceCaps = Except.ok mic)
    (hfo : dev.surfaceFormatsRequery = Except.error ()) :
    (run env).1 = Except.error RunError.surfaceFormatsFailure := by
  simp [run, hw, hp, hl, afterLoader, hre, hin, stageMessenger, hme, stageSurface, hsu,
    stageSelect, hpd, hfind, stageDevice, hqf, hde, stageQueries, hca, hfo]

end VulkanTest
